import Mathlib

/-!
Verification of the boutiques-schema-pydantic descriptor model.

The development shallowly embeds the two descriptor dialects of the
repository:

* the legacy dialect (`v_0_5/properties/inputs.py`, `outputs.py`,
  `resources.py`), whose pydantic models use the default lenient
  configuration (undeclared keys are silently ignored), and
* the extended dialect (`v_styx_1/descriptor.py`, `utils.py`), whose
  models all carry an extra-forbidding configuration.

A raw JSON input object is represented by `RawInput`: one optional field
per wire key declared by any input variant of either dialect, plus
`extra`, the list of keys undeclared in both dialects.  The raw `type`
key is modelled as an optional string; the extended-dialect sub-command
variants require a JSON object or array there and therefore never match
such an object, so they are omitted from the resolution chain.

Union resolution follows the contract of the source: the members of the
`Input` union are tried in declaration order and the first variant whose
fields validate is selected.  Each variant predicate below transcribes
the field set and constraints of the corresponding pydantic class.
-/

/-- A JSON scalar value, as it can appear for wire fields whose declared
type differs between variants (default values, value choices).  Numbers
are represented exactly as rationals; a number is integer-typed exactly
when its denominator is 1. -/
inductive JVal where
  | null : JVal
  | boolean : Bool → JVal
  | number : Rat → JVal
  | string : String → JVal
deriving DecidableEq

/-- Character class of the id pattern `[0-9_a-zA-Z]`. -/
def idChar (c : Char) : Bool := c.isAlphanum || c = '_'

/-- The `IdString` constraint: pattern `^[0-9_a-zA-Z]+$` with minimum
length 1 (`BaseInput.id`, `IdStringProperty`). -/
def idStrOk (s : String) : Bool := !s.isEmpty && s.toList.all idChar

/-- Character class of the value-key body pattern `[0-9_A-Z]`. -/
def vkChar (c : Char) : Bool := c.isDigit || c.isUpper || c = '_'

/-- The extended-dialect `ValueKeyStringProperty` constraint: pattern
`^\[[0-9_A-Z]+\]$`. -/
def valueKeyOk (s : String) : Bool :=
  let cs := s.toList
  (cs.head? == some '[') && (cs.getLast? == some ']') &&
    (let inner := (cs.drop 1).dropLast
     !inner.isEmpty && inner.all vkChar)

/-- A required field constrained by `StringProperty` (minimum length 1). -/
def reqStr1 : Option String → Bool
  | some s => !s.isEmpty
  | none => false

/-- An optional field constrained by `StringProperty` when present. -/
def optStr1 : Option String → Bool
  | some s => !s.isEmpty
  | none => true

/-- A required field constrained by the id pattern. -/
def reqId : Option String → Bool
  | some s => idStrOk s
  | none => false

/-- A required field constrained by the value-key pattern. -/
def reqValueKey : Option String → Bool
  | some s => valueKeyOk s
  | none => false

/-- The raw `type` key equals the literal `s`. -/
def typeIs (o : Option String) (s : String) : Bool :=
  match o with
  | some t => decide (t = s)
  | none => false

/-- Value acceptable for an `Optional[int]` field: absent, null, or an
integer-valued number. -/
def optIntVal : Option JVal → Bool
  | none => true
  | some JVal.null => true
  | some (JVal.number q) => decide (q.den = 1)
  | some _ => false

/-- Value acceptable for an `Optional[float]` field: absent, null, or any
number. -/
def optNumVal : Option JVal → Bool
  | none => true
  | some JVal.null => true
  | some (JVal.number _) => true
  | some _ => false

/-- Value acceptable for an `Optional[str]` field: absent, null, or a
string. -/
def optStrVal : Option JVal → Bool
  | none => true
  | some JVal.null => true
  | some (JVal.string _) => true
  | some _ => false

/-- Value acceptable for an `Optional[bool]` field: absent, null, or a
boolean. -/
def optBoolVal : Option JVal → Bool
  | none => true
  | some JVal.null => true
  | some (JVal.boolean _) => true
  | some _ => false

/-- Value choices acceptable for `Optional[list[str]]`. -/
def optChoicesStr : Option (List JVal) → Bool
  | none => true
  | some xs => xs.all fun v =>
      match v with
      | JVal.string _ => true
      | _ => false

/-- Value choices acceptable for `Optional[list[int]]`. -/
def optChoicesInt : Option (List JVal) → Bool
  | none => true
  | some xs => xs.all fun v =>
      match v with
      | JVal.number q => decide (q.den = 1)
      | _ => false

/-- An optional numeric field that must be integer-valued
(`Optional[int]` bounds of the extended-dialect `IntegerInput`). -/
def optIntQ : Option Rat → Bool
  | none => true
  | some q => decide (q.den = 1)

/-- The `integer` marker as required by `IntegerInput`
(`Literal[True]` with default `True`): true or absent. -/
def markerIntOk : Option Bool → Bool
  | none => true
  | some true => true
  | some false => false

/-- The `integer` marker as required by `FloatInput`
(`Optional[Literal[False]]` with default `False`): false or absent. -/
def markerFloatOk : Option Bool → Bool
  | none => true
  | some false => true
  | some true => false

/-- A raw JSON input object: one field per wire key declared by some
input variant of either dialect (field value `none` meaning the key is
absent), plus `extra`, the keys declared by no variant of either
dialect.  Keys whose declared pydantic type is fixed across variants are
carried with that type; `default-value` and `value-choices`, whose
declared type varies by variant, carry raw `JVal` values. -/
structure RawInput where
  id : Option String := none
  name : Option String := none
  description : Option String := none
  value_key : Option String := none
  type_ : Option String := none
  integer : Option Bool := none
  minimum : Option Rat := none
  maximum : Option Rat := none
  exclusive_minimum : Option Bool := none
  exclusive_maximum : Option Bool := none
  value_choices : Option (List JVal) := none
  default_value : Option JVal := none
  optional : Option Bool := none
  list_ : Option Bool := none
  list_separator : Option String := none
  min_list_entries : Option Rat := none
  max_list_entries : Option Rat := none
  command_line_flag : Option String := none
  command_line_flag_separator : Option String := none
  uses_absolute_path : Option Bool := none
  mutable : Option Bool := none
  resolve_parent : Option Bool := none
  requires_inputs : Option (List String) := none
  disables_inputs : Option (List String) := none
  value_requires : Option JVal := none
  value_enables : Option JVal := none
  value_disables : Option JVal := none
  extra : List String := []

namespace V05

/-- Legacy `BaseInput`: requires `id` (id pattern), `name`
(`StringProperty`), and `value-key` (an unconstrained string);
`description` and the relationship hints are unconstrained optionals.
The legacy `StringProperty` is defined in `v_0_5/__init__.py`; it is
modelled from the spec as a string of minimum length 1 (mirroring the
extended dialect). -/
def baseOk (r : RawInput) : Bool :=
  reqId r.id && reqStr1 r.name && r.value_key.isSome

/-- Legacy models use the default pydantic configuration, which ignores
undeclared keys, so each variant predicate constrains only the fields
the corresponding class declares. -/
def StringInputMatch (r : RawInput) : Bool :=
  typeIs r.type_ "String" && baseOk r &&
    optChoicesStr r.value_choices && optStrVal r.default_value

def FileInputMatch (r : RawInput) : Bool :=
  typeIs r.type_ "File" && baseOk r

def IntegerInputMatch (r : RawInput) : Bool :=
  typeIs r.type_ "Number" && baseOk r && markerIntOk r.integer &&
    optChoicesInt r.value_choices && optIntVal r.default_value

def FloatInputMatch (r : RawInput) : Bool :=
  typeIs r.type_ "Number" && baseOk r && markerFloatOk r.integer &&
    optNumVal r.default_value

def FlagInputMatch (r : RawInput) : Bool :=
  typeIs r.type_ "Flag" && baseOk r && optBoolVal r.default_value &&
    r.command_line_flag.isSome

/-- `ListInput` mixin: the `list` key must be literally true. -/
def listOk (r : RawInput) : Bool := r.list_ == some true

def IntegerListInputMatch (r : RawInput) : Bool :=
  IntegerInputMatch r && listOk r

/-- `FloatListInput` is declared in the source as
`class FloatListInput(IntegerInput, ListInput)`: it inherits the
integer-variant fields, not the float-variant ones. -/
def FloatListInputMatch (r : RawInput) : Bool :=
  IntegerInputMatch r && listOk r

/-- `StringListInput` is declared in the source as
`class StringListInput(IntegerInput, ListInput)`: it inherits the
integer-variant fields, not the string-variant ones. -/
def StringListInputMatch (r : RawInput) : Bool :=
  IntegerInputMatch r && listOk r

def FileListInputMatch (r : RawInput) : Bool :=
  FileInputMatch r && listOk r

/-- `CommandLineFlagged` mixin: requires the flag token. -/
def flaggedOk (r : RawInput) : Bool := r.command_line_flag.isSome

def CommandLineFlaggedStringInputMatch (r : RawInput) : Bool :=
  StringInputMatch r && flaggedOk r

def CommandLineFlaggedFileInputMatch (r : RawInput) : Bool :=
  FileInputMatch r && flaggedOk r

def CommandLineFlaggedIntegerInputMatch (r : RawInput) : Bool :=
  IntegerInputMatch r && flaggedOk r

def CommandLineFlaggedFloatInputMatch (r : RawInput) : Bool :=
  FloatInputMatch r && flaggedOk r

def CommandLineFlaggedStringListInputMatch (r : RawInput) : Bool :=
  StringListInputMatch r && flaggedOk r

def CommandLineFlaggedFileListInputMatch (r : RawInput) : Bool :=
  FileListInputMatch r && flaggedOk r

def CommandLineFlaggedIntegerListInputMatch (r : RawInput) : Bool :=
  IntegerListInputMatch r && flaggedOk r

def CommandLineFlaggedFloatListInputMatch (r : RawInput) : Bool :=
  FloatListInputMatch r && flaggedOk r

/-- The concrete members of the legacy `Input` union. -/
inductive Variant where
  | flag | string | file | integer | float
  | stringList | fileList | integerList | floatList
  | flaggedString | flaggedFile | flaggedInteger | flaggedFloat
  | flaggedStringList | flaggedFileList | flaggedIntegerList
  | flaggedFloatList
deriving DecidableEq

/-- Resolution of the legacy `Input` union: the variants are tried in the
declaration order of `typing.Union[...]` and the first match wins. -/
def resolveInput (r : RawInput) : Option Variant :=
  if FlagInputMatch r then some Variant.flag
  else if StringInputMatch r then some Variant.string
  else if FileInputMatch r then some Variant.file
  else if IntegerInputMatch r then some Variant.integer
  else if FloatInputMatch r then some Variant.float
  else if StringListInputMatch r then some Variant.stringList
  else if FileListInputMatch r then some Variant.fileList
  else if IntegerListInputMatch r then some Variant.integerList
  else if FloatListInputMatch r then some Variant.floatList
  else if CommandLineFlaggedStringInputMatch r then some Variant.flaggedString
  else if CommandLineFlaggedFileInputMatch r then some Variant.flaggedFile
  else if CommandLineFlaggedIntegerInputMatch r then some Variant.flaggedInteger
  else if CommandLineFlaggedFloatInputMatch r then some Variant.flaggedFloat
  else if CommandLineFlaggedStringListInputMatch r then some Variant.flaggedStringList
  else if CommandLineFlaggedFileListInputMatch r then some Variant.flaggedFileList
  else if CommandLineFlaggedIntegerListInputMatch r then some Variant.flaggedIntegerList
  else if CommandLineFlaggedFloatListInputMatch r then some Variant.flaggedFloatList
  else none

end V05

namespace VStyx1

/-- Keys that exist only in the legacy dialect; under the extended
dialect, whose models all set `extra="forbid"`, their presence is a
strictness violation for every variant. -/
def legacyOnlyAbsent (r : RawInput) : Bool :=
  r.requires_inputs.isNone && r.disables_inputs.isNone &&
    r.value_requires.isNone && r.value_enables.isNone &&
    r.value_disables.isNone && r.uses_absolute_path.isNone &&
    r.exclusive_minimum.isNone && r.exclusive_maximum.isNone

/-- Constraints shared by every extended-dialect variant: no
legacy-only key and no key undeclared in the model. -/
def commonForbid (r : RawInput) : Bool :=
  legacyOnlyAbsent r && r.extra.isEmpty

/-- Extended `BaseInput`: `id` (id pattern) and `value-key`
(value-key pattern) required; `name` and `description` are optional
`StringProperty` values. -/
def baseOk (r : RawInput) : Bool :=
  reqId r.id && optStr1 r.name && optStr1 r.description &&
    reqValueKey r.value_key

/-- Fields of the `ListInput` mixin must all be absent. -/
def noListFields (r : RawInput) : Bool :=
  r.list_.isNone && r.list_separator.isNone &&
    r.min_list_entries.isNone && r.max_list_entries.isNone

/-- The `ListInput` mixin is present: the `list` key is literally true. -/
def hasListFields (r : RawInput) : Bool := r.list_ == some true

/-- Fields of the `CommandLineFlagged` mixin must all be absent. -/
def noFlagFields (r : RawInput) : Bool :=
  r.command_line_flag.isNone && r.command_line_flag_separator.isNone

/-- The `CommandLineFlagged` mixin is present: the flag token exists. -/
def hasFlagToken (r : RawInput) : Bool := r.command_line_flag.isSome

/-- Fields declared only by the extended `FileInput` must be absent. -/
def noFileFields (r : RawInput) : Bool :=
  r.mutable.isNone && r.resolve_parent.isNone

/-- Number-variant fields must be absent. -/
def noNumFields (r : RawInput) : Bool :=
  r.integer.isNone && r.minimum.isNone && r.maximum.isNone

/-- Field constraints of the extended `StringInput` class itself
(before the list/flag mixin combination). -/
def stringCore (r : RawInput) : Bool :=
  typeIs r.type_ "String" && baseOk r &&
    optChoicesStr r.value_choices && optStrVal r.default_value &&
    noNumFields r && noFileFields r && commonForbid r

/-- Field constraints of the extended `FileInput` class itself. -/
def fileCore (r : RawInput) : Bool :=
  typeIs r.type_ "File" && baseOk r &&
    r.value_choices.isNone && r.default_value.isNone &&
    noNumFields r && commonForbid r

/-- Field constraints of the extended `IntegerInput` class itself: the
`integer` marker true or absent, bounds and values integer-typed. -/
def integerCore (r : RawInput) : Bool :=
  typeIs r.type_ "Number" && baseOk r && markerIntOk r.integer &&
    optIntQ r.minimum && optIntQ r.maximum &&
    optChoicesInt r.value_choices && optIntVal r.default_value &&
    noFileFields r && commonForbid r

/-- Field constraints of the extended `FloatInput` class itself: the
`integer` marker false or absent; no `value-choices` field. -/
def floatCore (r : RawInput) : Bool :=
  typeIs r.type_ "Number" && baseOk r && markerFloatOk r.integer &&
    r.value_choices.isNone && optNumVal r.default_value &&
    noFileFields r && commonForbid r

/-- Field constraints of the extended `FlagInput` class: a flag token is
required but the separator key is not declared by the class. -/
def flagCore (r : RawInput) : Bool :=
  typeIs r.type_ "Flag" && baseOk r && optBoolVal r.default_value &&
    hasFlagToken r && r.command_line_flag_separator.isNone &&
    r.value_choices.isNone && noNumFields r && noFileFields r &&
    commonForbid r

def FlagInputMatch (r : RawInput) : Bool :=
  flagCore r && noListFields r

def StringInputMatch (r : RawInput) : Bool :=
  stringCore r && noListFields r && noFlagFields r

def FileInputMatch (r : RawInput) : Bool :=
  fileCore r && noListFields r && noFlagFields r

def IntegerInputMatch (r : RawInput) : Bool :=
  integerCore r && noListFields r && noFlagFields r

def FloatInputMatch (r : RawInput) : Bool :=
  floatCore r && noListFields r && noFlagFields r

def StringListInputMatch (r : RawInput) : Bool :=
  stringCore r && hasListFields r && noFlagFields r

def FileListInputMatch (r : RawInput) : Bool :=
  fileCore r && hasListFields r && noFlagFields r

def IntegerListInputMatch (r : RawInput) : Bool :=
  integerCore r && hasListFields r && noFlagFields r

def FloatListInputMatch (r : RawInput) : Bool :=
  floatCore r && hasListFields r && noFlagFields r

def CommandLineFlaggedStringInputMatch (r : RawInput) : Bool :=
  stringCore r && noListFields r && hasFlagToken r

def CommandLineFlaggedFileInputMatch (r : RawInput) : Bool :=
  fileCore r && noListFields r && hasFlagToken r

def CommandLineFlaggedIntegerInputMatch (r : RawInput) : Bool :=
  integerCore r && noListFields r && hasFlagToken r

def CommandLineFlaggedFloatInputMatch (r : RawInput) : Bool :=
  floatCore r && noListFields r && hasFlagToken r

def CommandLineFlaggedStringListInputMatch (r : RawInput) : Bool :=
  stringCore r && hasListFields r && hasFlagToken r

def CommandLineFlaggedFileListInputMatch (r : RawInput) : Bool :=
  fileCore r && hasListFields r && hasFlagToken r

def CommandLineFlaggedIntegerListInputMatch (r : RawInput) : Bool :=
  integerCore r && hasListFields r && hasFlagToken r

def CommandLineFlaggedFloatListInputMatch (r : RawInput) : Bool :=
  floatCore r && hasListFields r && hasFlagToken r

/-- The concrete members of the extended `Input` union resolvable for a
raw object whose `type` key is a JSON string.  The eight sub-command
variants require a JSON object or array as `type` and can never match
such an object; they sit at the end of the union and are therefore
omitted from the resolution chain. -/
inductive Variant where
  | flag | string | file | integer | float
  | stringList | fileList | integerList | floatList
  | flaggedString | flaggedFile | flaggedInteger | flaggedFloat
  | flaggedStringList | flaggedFileList | flaggedIntegerList
  | flaggedFloatList
deriving DecidableEq

/-- Resolution of the extended `Input` union in declaration order. -/
def resolveInput (r : RawInput) : Option Variant :=
  if FlagInputMatch r then some Variant.flag
  else if StringInputMatch r then some Variant.string
  else if FileInputMatch r then some Variant.file
  else if IntegerInputMatch r then some Variant.integer
  else if FloatInputMatch r then some Variant.float
  else if StringListInputMatch r then some Variant.stringList
  else if FileListInputMatch r then some Variant.fileList
  else if IntegerListInputMatch r then some Variant.integerList
  else if FloatListInputMatch r then some Variant.floatList
  else if CommandLineFlaggedStringInputMatch r then some Variant.flaggedString
  else if CommandLineFlaggedFileInputMatch r then some Variant.flaggedFile
  else if CommandLineFlaggedIntegerInputMatch r then some Variant.flaggedInteger
  else if CommandLineFlaggedFloatInputMatch r then some Variant.flaggedFloat
  else if CommandLineFlaggedStringListInputMatch r then some Variant.flaggedStringList
  else if CommandLineFlaggedFileListInputMatch r then some Variant.flaggedFileList
  else if CommandLineFlaggedIntegerListInputMatch r then some Variant.flaggedIntegerList
  else if CommandLineFlaggedFloatListInputMatch r then some Variant.flaggedFloatList
  else none

/-- A raw extended-dialect output object (`Output` in
`v_styx_1/descriptor.py`). -/
structure RawOutput where
  id : Option String := none
  name : Option String := none
  description : Option String := none
  path_template : Option String := none
  path_template_stripped_extensions : Option (List String) := none
  path_template_fallback : Option String := none
  extra : List String := []

/-- Validation of the extended `Output` model: `id` (id pattern) and
`path-template` (`StringProperty`) required, `name` and `description`
optional `StringProperty` values, stripped extensions each a
`StringProperty`, and no undeclared key. -/
def outputOk (o : RawOutput) : Bool :=
  reqId o.id && optStr1 o.name && optStr1 o.description &&
    reqStr1 o.path_template &&
    (match o.path_template_stripped_extensions with
     | none => true
     | some xs => xs.all fun s => !s.isEmpty) &&
    o.extra.isEmpty

/-- A raw `stdout-output` or `stderr-output` object (`StdoutOutput`,
`StderrOutput`). -/
structure RawStreamOutput where
  id : Option String := none
  name : Option String := none
  description : Option String := none
  extra : List String := []

/-- Validation of the captured-stream output models: `id` (id pattern)
required, `name` of minimum length 1 when present, `description`
unconstrained, no undeclared key. -/
def streamOutputOk (o : RawStreamOutput) : Bool :=
  reqId o.id && optStr1 o.name && o.extra.isEmpty

/-- A raw extended-dialect descriptor document (`Descriptor` in
`v_styx_1/descriptor.py`, inheriting `SubCommand`).  The `url` field is
carried as a string; its URL-syntax validation is not modelled. -/
structure RawDescriptor where
  name : Option String := none
  description : Option String := none
  command_line : Option String := none
  inputs : Option (List RawInput) := none
  output_files : Option (List RawOutput) := none
  schema_version : Option String := none
  author : Option String := none
  url : Option String := none
  stdout_output : Option RawStreamOutput := none
  stderr_output : Option RawStreamOutput := none
  extra : List String := []

/-- Validation of the extended `Descriptor` model: tool `name` and
`command-line` required (`StringProperty`), `schema-version` required to
be the literal string `0.5+styx`, every input resolving to some union
variant, every output and captured-stream output validating, and no
undeclared key (`extra="forbid"`). -/
def descriptorOk (d : RawDescriptor) : Bool :=
  reqStr1 d.name && optStr1 d.description && reqStr1 d.command_line &&
    (match d.inputs with
     | none => true
     | some xs => xs.all fun i => (resolveInput i).isSome) &&
    (match d.output_files with
     | none => true
     | some xs => xs.all outputOk) &&
    (d.schema_version == some "0.5+styx") &&
    optStr1 d.author &&
    (match d.stdout_output with
     | none => true
     | some o => streamOutputOk o) &&
    (match d.stderr_output with
     | none => true
     | some o => streamOutputOk o) &&
    d.extra.isEmpty

end VStyx1

namespace V05

/-- Character class of the `PathProperty.propertyNames` pattern
`[A-Za-z0-9_><=!)( ]`. -/
def condChar (c : Char) : Bool :=
  c.isAlphanum || c = '_' || c = '>' || c = '<' || c = '=' ||
    c = '!' || c = ')' || c = '(' || c = ' '

/-- A raw legacy output object, with one field per wire key declared by
`BaseOutput`, `PathTemplateOutput` or `ConditionalPathTemplateOutput`.
Each conditional entry is represented by its `propertyNames` string. -/
structure RawOutput where
  id : Option String := none
  name : Option String := none
  description : Option String := none
  optional : Option Bool := none
  path_template_stripped_extensions : Option (List String) := none
  file_template : Option (List String) := none
  value_key : Option String := none
  path_template : Option String := none
  conditional_path_template : Option (List String) := none
  extra : List String := []

/-- The legacy `PathTemplateOutput` class declares a single optional
`path-template` field (`Optional[StringProperty]`, default none) and
does not inherit `BaseOutput`; under the lenient legacy configuration
every other key is ignored. -/
def PathTemplateOutputMatch (o : RawOutput) : Bool :=
  match o.path_template with
  | none => true
  | some s => !s.isEmpty

/-- The legacy `ConditionalPathTemplateOutput` class declares a single
optional `conditional-path-template` field: when present, a non-empty
list whose entries each satisfy the `propertyNames` pattern; it does not
inherit `BaseOutput` either. -/
def ConditionalPathTemplateOutputMatch (o : RawOutput) : Bool :=
  match o.conditional_path_template with
  | none => true
  | some xs => !xs.isEmpty && xs.all fun s => s.toList.all condChar

/-- The members of the legacy `Output` union. -/
inductive OutputVariant where
  | pathTemplate
  | conditionalPathTemplate
deriving DecidableEq

/-- Resolution of the legacy `Output` union
(`Union[PathTemplateOutput, ConditionalPathTemplateOutput]`) in
declaration order. -/
def resolveOutput (o : RawOutput) : Option OutputVariant :=
  if PathTemplateOutputMatch o then some OutputVariant.pathTemplate
  else if ConditionalPathTemplateOutputMatch o then
    some OutputVariant.conditionalPathTemplate
  else none

/-- A raw `suggested-resources` object.  Each field distinguishes the
key being absent (outer `none`), an explicit null (`some none`) and a
numeric value (`some (some q)`). -/
structure RawResources where
  cpu_cores : Option (Option Rat) := none
  ram : Option (Option Rat) := none
  disk_space : Option (Option Rat) := none
  nodes : Option (Option Rat) := none
  walltime_estimate : Option (Option Rat) := none

/-- An `Optional[int]` field declared with `ge=1` and no default: the
key must be present (pydantic treats a defaultless field as required),
and a non-null value must be an integer at least 1. -/
def reqFieldIntGe1 : Option (Option Rat) → Bool
  | none => false
  | some none => true
  | some (some q) => decide (q.den = 1) && decide (1 ≤ q)

/-- An `Optional[float]` field declared with `ge=0` and no default: the
key must be present, and a non-null value must be at least 0. -/
def reqFieldNumGe0 : Option (Option Rat) → Bool
  | none => false
  | some none => true
  | some (some q) => decide (0 ≤ q)

/-- Validation of the `SuggestedResources` model as declared in
`v_0_5/properties/resources.py`: every field is typed
`Optional[...] = pydantic.Field(..., ge=...)` without a default value,
so pydantic requires each key to be present. -/
def suggestedResourcesOk (r : RawResources) : Bool :=
  reqFieldIntGe1 r.cpu_cores && reqFieldNumGe0 r.ram &&
    reqFieldNumGe0 r.disk_space && reqFieldIntGe1 r.nodes &&
    reqFieldNumGe0 r.walltime_estimate

end V05

/-- The exported JSON Schema document.
Modelled from the spec: the legacy `Descriptor` class whose
`model_json_schema()` result `export_boutiques_0_5` returns lives in
`v_0_5/schema.py`, which is absent from the sources, so the document is
represented abstractly by the dialect it describes (spec sections 4.5
and 6). -/
structure SchemaDoc where
  dialect : String
deriving DecidableEq

def NAME_BOUTIQUES_0_5 : String := "boutiques-0.5"

/-- Modelled from the spec: `export_boutiques_0_5` builds the JSON
Schema of the legacy dialect from the type model alone (`cli.py` lines
16 to 20; the `Descriptor` class it reflects over is absent from src). -/
def export_boutiques_0_5 : SchemaDoc :=
  SchemaDoc.mk NAME_BOUTIQUES_0_5

/-- `get_schema` from `cli.py`: returns the schema of a known dialect
name and raises `ValueError` with an unknown-schema message otherwise.
The raised error is embedded as the `Except.error` branch. -/
def get_schema (schema_name : String) : Except String SchemaDoc :=
  if schema_name = NAME_BOUTIQUES_0_5 then
    Except.ok export_boutiques_0_5
  else
    Except.error ("Unknown schema: " ++ schema_name)

/-- An explicit process state for the exporter: a log of performed
input/output effects and a mutable key-value store.  `get_schema`
touches neither (it only reads module-level constants and builds the
schema from the class definitions), so its state-threaded embedding
passes the state through unchanged. -/
structure World where
  ioLog : List String
  store : List (String × String)

/-- State-threaded embedding of `get_schema`: the function body neither
reads nor writes any mutable state and performs no input/output, so the
world component is returned as received. -/
def get_schema_st (w : World) (schema_name : String) :
    World × Except String SchemaDoc :=
  (w, get_schema schema_name)

theorem typeIs_ne {o : Option String} {s t : String}
    (h : typeIs o s = true) (hne : s ≠ t) : typeIs o t = false := by
  cases o with
  | none => simp [typeIs] at h
  | some a =>
    simp only [typeIs, decide_eq_true_eq] at h
    subst h
    simp [typeIs, hne]

theorem typeIs_Number_not_Flag {o : Option String}
    (h : typeIs o "Number" = true) : typeIs o "Flag" = false :=
  typeIs_ne h (by decide)

theorem typeIs_Number_not_String {o : Option String}
    (h : typeIs o "Number" = true) : typeIs o "String" = false :=
  typeIs_ne h (by decide)

theorem typeIs_Number_not_File {o : Option String}
    (h : typeIs o "Number" = true) : typeIs o "File" = false :=
  typeIs_ne h (by decide)

/-- C7: for every dialect name outside the supported enumerated set, the
schema exporter fails with the unknown-schema error, returning no schema
document. -/
theorem c7_unknown_dialect_error (n : String) (h : n ≠ NAME_BOUTIQUES_0_5) :
    get_schema n = Except.error ("Unknown schema: " ++ n) := by
  simp [get_schema, h]

theorem c7_unknown_dialect_error_witness :
    get_schema "not-a-real-dialect" =
      Except.error ("Unknown schema: " ++ "not-a-real-dialect") :=
  c7_unknown_dialect_error "not-a-real-dialect" (by decide)

/-- C9: the exporter is a pure, deterministic function of the dialect
name: in the state-threaded embedding, running it twice in sequence
yields identical documents and leaves the process state untouched. -/
theorem c9_export_pure_deterministic (w : World) (n : String) :
    (get_schema_st ((get_schema_st w n).1) n).2 = (get_schema_st w n).2 ∧
    (get_schema_st ((get_schema_st w n).1) n).1 = w :=
  ⟨rfl, rfl⟩

/-- C4: an undeclared key makes extended-dialect validation fail (for
input objects and for the descriptor aggregate), while legacy-dialect
resolution is unchanged by undeclared keys: the object validates exactly
as if the keys were absent. -/
theorem c4_strictness_divergence :
    (∀ r : RawInput, r.extra ≠ [] → VStyx1.resolveInput r = none) ∧
    (∀ (r : RawInput) (e : List String),
      V05.resolveInput { r with extra := e } = V05.resolveInput r) ∧
    (∀ d : VStyx1.RawDescriptor, d.extra ≠ [] →
      VStyx1.descriptorOk d = false) := by
  refine ⟨?_, ?_, ?_⟩
  · intro r h
    have hBe : r.extra.isEmpty = false := by
      cases hx : r.extra with
      | nil => exact absurd hx h
      | cons a l => rfl
    simp [VStyx1.resolveInput, VStyx1.FlagInputMatch,
      VStyx1.StringInputMatch, VStyx1.FileInputMatch,
      VStyx1.IntegerInputMatch, VStyx1.FloatInputMatch,
      VStyx1.StringListInputMatch, VStyx1.FileListInputMatch,
      VStyx1.IntegerListInputMatch, VStyx1.FloatListInputMatch,
      VStyx1.CommandLineFlaggedStringInputMatch,
      VStyx1.CommandLineFlaggedFileInputMatch,
      VStyx1.CommandLineFlaggedIntegerInputMatch,
      VStyx1.CommandLineFlaggedFloatInputMatch,
      VStyx1.CommandLineFlaggedStringListInputMatch,
      VStyx1.CommandLineFlaggedFileListInputMatch,
      VStyx1.CommandLineFlaggedIntegerListInputMatch,
      VStyx1.CommandLineFlaggedFloatListInputMatch,
      VStyx1.flagCore, VStyx1.stringCore, VStyx1.fileCore,
      VStyx1.integerCore, VStyx1.floatCore, VStyx1.commonForbid, hBe]
  · intro r e
    rfl
  · intro d h
    have hBe : d.extra.isEmpty = false := by
      cases hx : d.extra with
      | nil => exact absurd hx h
      | cons a l => rfl
    simp [VStyx1.descriptorOk, hBe]

theorem c4_strictness_divergence_witness :
    VStyx1.resolveInput { extra := ["custom-key"] } = none ∧
    V05.resolveInput
        { (({} : RawInput)) with extra := ["custom-key"] } =
      V05.resolveInput {} ∧
    VStyx1.descriptorOk { extra := ["custom-key"] } = false :=
  ⟨c4_strictness_divergence.1 { extra := ["custom-key"] } (by decide),
   c4_strictness_divergence.2.1 {} ["custom-key"],
   c4_strictness_divergence.2.2 { extra := ["custom-key"] } (by decide)⟩

def numberNoMarkerFracDefault : RawInput :=
  { id := some "n1", name := some "N", value_key := some "[N]",
    type_ := some "Number",
    default_value := some (JVal.number (mkRat 5 2)) }

/-- C1 counterexample: a raw Number-kind object with the integer marker
absent but a fractional default value does not resolve to the Integer
variant; both dialects resolve it to the Float variant. -/
theorem c1_counterexample :
    numberNoMarkerFracDefault.integer = none ∧
    V05.resolveInput numberNoMarkerFracDefault = some V05.Variant.float ∧
    VStyx1.resolveInput numberNoMarkerFracDefault =
      some VStyx1.Variant.float := by
  refine ⟨rfl, ?_, ?_⟩ <;> decide

/-- C1 (amended): for a raw Number-kind object whose fields type-check
for the Integer variant, the integer marker being true or absent makes
resolution select the Integer variant; when the marker is explicitly
false and the fields type-check for the Float variant, resolution
selects the Float variant; and no object resolves to both.  This holds
in both dialects. -/
theorem c1_number_marker_resolution (r : RawInput) :
    (V05.IntegerInputMatch r = true →
      V05.resolveInput r = some V05.Variant.integer) ∧
    (r.integer = some false → V05.FloatInputMatch r = true →
      V05.resolveInput r = some V05.Variant.float) ∧
    (VStyx1.IntegerInputMatch r = true →
      VStyx1.resolveInput r = some VStyx1.Variant.integer) ∧
    (r.integer = some false → VStyx1.FloatInputMatch r = true →
      VStyx1.resolveInput r = some VStyx1.Variant.float) ∧
    (¬ (V05.resolveInput r = some V05.Variant.integer ∧
        V05.resolveInput r = some V05.Variant.float)) ∧
    (¬ (VStyx1.resolveInput r = some VStyx1.Variant.integer ∧
        VStyx1.resolveInput r = some VStyx1.Variant.float)) := by
  refine ⟨?_, ?_, ?_, ?_, ?_, ?_⟩
  · intro h
    have hh := h
    simp only [V05.IntegerInputMatch, Bool.and_eq_true] at h
    have hN : typeIs r.type_ "Number" = true := h.1.1.1.1
    have hFlag : V05.FlagInputMatch r = false := by
      simp [V05.FlagInputMatch, typeIs_Number_not_Flag hN]
    have hStr : V05.StringInputMatch r = false := by
      simp [V05.StringInputMatch, typeIs_Number_not_String hN]
    have hFile : V05.FileInputMatch r = false := by
      simp [V05.FileInputMatch, typeIs_Number_not_File hN]
    simp [V05.resolveInput, hFlag, hStr, hFile, hh]
  · intro h1 h2
    have hh := h2
    simp only [V05.FloatInputMatch, Bool.and_eq_true] at h2
    have hN : typeIs r.type_ "Number" = true := h2.1.1.1
    have hFlag : V05.FlagInputMatch r = false := by
      simp [V05.FlagInputMatch, typeIs_Number_not_Flag hN]
    have hStr : V05.StringInputMatch r = false := by
      simp [V05.StringInputMatch, typeIs_Number_not_String hN]
    have hFile : V05.FileInputMatch r = false := by
      simp [V05.FileInputMatch, typeIs_Number_not_File hN]
    have hInt : V05.IntegerInputMatch r = false := by
      simp [V05.IntegerInputMatch, h1, markerIntOk]
    simp [V05.resolveInput, hFlag, hStr, hFile, hInt, hh]
  · intro h
    have hh := h
    simp only [VStyx1.IntegerInputMatch, VStyx1.integerCore,
      Bool.and_eq_true] at h
    have hN : typeIs r.type_ "Number" = true := h.1.1.1.1.1.1.1.1.1.1
    have hFlag : VStyx1.FlagInputMatch r = false := by
      simp [VStyx1.FlagInputMatch, VStyx1.flagCore,
        typeIs_Number_not_Flag hN]
    have hStr : VStyx1.StringInputMatch r = false := by
      simp [VStyx1.StringInputMatch, VStyx1.stringCore,
        typeIs_Number_not_String hN]
    have hFile : VStyx1.FileInputMatch r = false := by
      simp [VStyx1.FileInputMatch, VStyx1.fileCore,
        typeIs_Number_not_File hN]
    simp [VStyx1.resolveInput, hFlag, hStr, hFile, hh]
  · intro h1 h2
    have hh := h2
    simp only [VStyx1.FloatInputMatch, VStyx1.floatCore,
      Bool.and_eq_true] at h2
    have hN : typeIs r.type_ "Number" = true := h2.1.1.1.1.1.1.1.1
    have hFlag : VStyx1.FlagInputMatch r = false := by
      simp [VStyx1.FlagInputMatch, VStyx1.flagCore,
        typeIs_Number_not_Flag hN]
    have hStr : VStyx1.StringInputMatch r = false := by
      simp [VStyx1.StringInputMatch, VStyx1.stringCore,
        typeIs_Number_not_String hN]
    have hFile : VStyx1.FileInputMatch r = false := by
      simp [VStyx1.FileInputMatch, VStyx1.fileCore,
        typeIs_Number_not_File hN]
    have hInt : VStyx1.IntegerInputMatch r = false := by
      simp [VStyx1.IntegerInputMatch, VStyx1.integerCore, h1, markerIntOk]
    simp [VStyx1.resolveInput, hFlag, hStr, hFile, hInt, hh]
  · intro h
    have hc := h.1.symm.trans h.2
    simp at hc
  · intro h
    have hc := h.1.symm.trans h.2
    simp at hc

def numberPlain : RawInput :=
  { id := some "num", name := some "Num", value_key := some "[NUM]",
    type_ := some "Number" }

def numberFloatPlain : RawInput :=
  { numberPlain with integer := some false }

theorem c1_number_marker_resolution_witness :
    V05.resolveInput numberPlain = some V05.Variant.integer ∧
    V05.resolveInput numberFloatPlain = some V05.Variant.float ∧
    VStyx1.resolveInput numberPlain = some VStyx1.Variant.integer ∧
    VStyx1.resolveInput numberFloatPlain = some VStyx1.Variant.float :=
  ⟨(c1_number_marker_resolution numberPlain).1 (by decide),
   (c1_number_marker_resolution numberFloatPlain).2.1 rfl (by decide),
   (c1_number_marker_resolution numberPlain).2.2.1 (by decide),
   (c1_number_marker_resolution numberFloatPlain).2.2.2.1 rfl (by decide)⟩

def flagWithList : RawInput :=
  { id := some "verbose", name := some "Verbose", value_key := some "[V]",
    type_ := some "Flag", command_line_flag := some "-v",
    list_ := some true }

/-- C2 counterexample: a raw Flag-kind input carrying a `list` marker is
accepted by legacy-dialect resolution (as a scalar Flag input, the
marker silently ignored), so it is not rejected in both dialects. -/
theorem c2_counterexample :
    flagWithList.type_ = some "Flag" ∧ flagWithList.list_ = some true ∧
    V05.resolveInput flagWithList = some V05.Variant.flag := by
  refine ⟨rfl, rfl, ?_⟩
  decide

/-- C2 (amended): a Flag-kind raw input carrying a `list` key is
rejected by extended-dialect resolution; under the legacy dialect a
Flag-kind input matching the Flag variant is accepted as a scalar Flag
input regardless of any undeclared `list` key. -/
theorem c2_flag_list_marker (r : RawInput) :
    (r.type_ = some "Flag" → r.list_ ≠ none →
      VStyx1.resolveInput r = none) ∧
    (V05.FlagInputMatch r = true →
      V05.resolveInput r = some V05.Variant.flag) := by
  constructor
  · intro h1 h2
    have hl : r.list_.isNone = false := by
      cases hx : r.list_ with
      | none => exact absurd hx h2
      | some b => rfl
    have hT : typeIs r.type_ "Flag" = true := by simp [typeIs, h1]
    have hS : typeIs r.type_ "String" = false :=
      typeIs_ne hT (by decide)
    have hF : typeIs r.type_ "File" = false :=
      typeIs_ne hT (by decide)
    have hN : typeIs r.type_ "Number" = false :=
      typeIs_ne hT (by decide)
    simp [VStyx1.resolveInput, VStyx1.FlagInputMatch,
      VStyx1.StringInputMatch, VStyx1.FileInputMatch,
      VStyx1.IntegerInputMatch, VStyx1.FloatInputMatch,
      VStyx1.StringListInputMatch, VStyx1.FileListInputMatch,
      VStyx1.IntegerListInputMatch, VStyx1.FloatListInputMatch,
      VStyx1.CommandLineFlaggedStringInputMatch,
      VStyx1.CommandLineFlaggedFileInputMatch,
      VStyx1.CommandLineFlaggedIntegerInputMatch,
      VStyx1.CommandLineFlaggedFloatInputMatch,
      VStyx1.CommandLineFlaggedStringListInputMatch,
      VStyx1.CommandLineFlaggedFileListInputMatch,
      VStyx1.CommandLineFlaggedIntegerListInputMatch,
      VStyx1.CommandLineFlaggedFloatListInputMatch,
      VStyx1.flagCore, VStyx1.stringCore, VStyx1.fileCore,
      VStyx1.integerCore, VStyx1.floatCore, VStyx1.noListFields,
      hl, hS, hF, hN]
  · intro h
    simp [V05.resolveInput, h]

theorem c2_flag_list_marker_witness :
    VStyx1.resolveInput flagWithList = none ∧
    V05.resolveInput flagWithList = some V05.Variant.flag :=
  ⟨(c2_flag_list_marker flagWithList).1 rfl (by decide),
   (c2_flag_list_marker flagWithList).2 (by decide)⟩

def stringWithList : RawInput :=
  { id := some "s1", name := some "S", value_key := some "[S]",
    type_ := some "String", list_ := some true }

def numberFloatWithList : RawInput :=
  { id := some "f1", name := some "F", value_key := some "[F]",
    type_ := some "Number", integer := some false, list_ := some true }

def numberIntWithList : RawInput :=
  { id := some "i1", name := some "I", value_key := some "[I]",
    type_ := some "Number", list_ := some true }

/-- C3: in the legacy dialect the String and Float list classes inherit
the fields of `IntegerInput`, not of their own value kind.  A raw input
with type String and list true fails the String list variant (and
resolves to the scalar String variant, the list marker ignored); a raw
Number input with integer false and list true fails the Float list
variant (and resolves to the scalar Float variant); and both ostensible
String and Float list variants instead accept an Integer-shaped Number
object, the integer fields having leaked in. -/
theorem c3_list_variant_leakage :
    V05.StringListInputMatch stringWithList = false ∧
    V05.resolveInput stringWithList = some V05.Variant.string ∧
    V05.FloatListInputMatch numberFloatWithList = false ∧
    V05.resolveInput numberFloatWithList = some V05.Variant.float ∧
    V05.StringListInputMatch numberIntWithList = true ∧
    V05.FloatListInputMatch numberIntWithList = true := by
  decide

def nullResources : V05.RawResources :=
  { cpu_cores := some none, ram := some none, disk_space := some none,
    nodes := some none, walltime_estimate := some none }

def missingCpuResources : V05.RawResources :=
  { ram := some none, disk_space := some none, nodes := some none,
    walltime_estimate := some none }

/-- C5: every `SuggestedResources` field is declared without a default,
so pydantic requires each key to be present: the empty object and an
object omitting only `cpu-core` are both rejected, contradicting the
claim that every field may independently be omitted.  The lower bounds
themselves behave as claimed: explicit nulls validate, `cpu-core` 0 and
negative `ram` are rejected, `cpu-core` 1 and `ram` 0 are accepted. -/
theorem c5_resources_fields_required :
    V05.suggestedResourcesOk {} = false ∧
    V05.suggestedResourcesOk missingCpuResources = false ∧
    V05.suggestedResourcesOk nullResources = true ∧
    V05.suggestedResourcesOk
        { nullResources with cpu_cores := some (some 0) } = false ∧
    V05.suggestedResourcesOk
        { nullResources with cpu_cores := some (some 1) } = true ∧
    V05.suggestedResourcesOk
        { nullResources with ram := some (some (-1)) } = false ∧
    V05.suggestedResourcesOk
        { nullResources with ram := some (some 0) } = true := by
  decide

/-- C6: the legacy `Output` union members do not inherit `BaseOutput`,
and each declares only a single optional field, so the empty raw object
— lacking id, name and both template forms — is accepted as a
`PathTemplateOutput`, contradicting the claim that such objects are
rejected. -/
theorem c6_output_accepts_empty :
    ({} : V05.RawOutput).id = none ∧ ({} : V05.RawOutput).name = none ∧
    ({} : V05.RawOutput).path_template = none ∧
    ({} : V05.RawOutput).conditional_path_template = none ∧
    V05.resolveOutput {} = some V05.OutputVariant.pathTemplate := by
  decide

def scenarioB : RawInput :=
  { id := some "1bad", type_ := some "String", value_key := some "x",
    name := some "n" }

/-- C8 counterexample: the id string of scenario B matches the id
pattern (leading digits are allowed by `^[0-9_a-zA-Z]+$`), and the raw
object validates in the legacy dialect as a scalar String input, so it
does not fail with a pattern violation on `id`. -/
theorem c8_counterexample :
    idStrOk "1bad" = true ∧
    V05.resolveInput scenarioB = some V05.Variant.string := by
  decide

/-- C8 (amended): the scenario B input validates in the legacy dialect
as a scalar String input, its id matching the id pattern; in the
extended dialect the object is rejected, but because the value-key
string fails the value-key pattern, not because of the id. -/
theorem c8_scenario_b_id_pattern :
    idStrOk "1bad" = true ∧
    V05.resolveInput scenarioB = some V05.Variant.string ∧
    VStyx1.resolveInput scenarioB = none ∧
    valueKeyOk "x" = false := by
  decide

def validStyxDescriptor : VStyx1.RawDescriptor :=
  { name := some "tool", command_line := some "tool [X]",
    schema_version := some "0.5+styx" }

/-- C10: an extended-dialect descriptor is accepted only when its
schema-version field is exactly the literal string 0.5+styx; any other
value, or its absence, makes validation fail. -/
theorem c10_schema_version_literal (d : VStyx1.RawDescriptor) :
    (VStyx1.descriptorOk d = true →
      d.schema_version = some "0.5+styx") ∧
    (d.schema_version ≠ some "0.5+styx" →
      VStyx1.descriptorOk d = false) := by
  constructor
  · intro h
    simp only [VStyx1.descriptorOk, Bool.and_eq_true] at h
    exact eq_of_beq h.1.1.1.1.2
  · intro h
    have hb : (d.schema_version == some "0.5+styx") = false :=
      beq_eq_false_iff_ne.mpr h
    simp [VStyx1.descriptorOk, hb]

theorem c10_schema_version_literal_witness :
    VStyx1.descriptorOk validStyxDescriptor = true ∧
    validStyxDescriptor.schema_version = some "0.5+styx" ∧
    VStyx1.descriptorOk
        { validStyxDescriptor with schema_version := some "0.5" } =
      false :=
  ⟨by decide,
   (c10_schema_version_literal validStyxDescriptor).1 (by decide),
   (c10_schema_version_literal
       { validStyxDescriptor with schema_version := some "0.5" }).2
     (by decide)⟩
